import Mathlib

/-!
Verification of the HTTP response builder in src/src/httpresponse.rs.

Modelling decisions:
- the Rust HashMap of headers is an association list `List (String × String)`;
  its list order stands for the (unspecified) iteration order of the map,
  and statements about "any iteration order" quantify over permutations;
- a Rust string byte length (str::len) is `String.utf8ByteSize`;
- the output stream of `send_response` is a `WriteStream`: a buffer of bytes
  written so far plus an optional pending I/O error; a write either appends
  to the buffer or fails with exactly that error, mirroring a sink whose
  underlying write can fail (e.g. broken pipe).
-/

/-- the struct HttpResponse (src lines 4-11): version, status code, status
text, optional header map, optional body. -/
structure HttpResponse where
  version : String
  status_code : String
  status_text : String
  headers : Option (List (String × String))
  body : Option String
  deriving Repr, DecidableEq

/-- impl Default for HttpResponse (src lines 13-23). -/
def HttpResponse.default : HttpResponse :=
  { version := "HTTP/1.1"
    status_code := "200"
    status_text := "OK"
    headers := none
    body := none }

/-- the status-text lookup inside HttpResponse::new (src lines 44-50):
exact match on the status code string with fallback to "Not Found". -/
def statusTextOf (status_code : String) : String :=
  match status_code with
  | "200" => "OK"
  | "400" => "Bad Request"
  | "404" => "Not Found"
  | "500" => "Internal Server Error"
  | _ => "Not Found"

/-- HttpResponse::new (src lines 26-54): starts from default, stores the
status code verbatim, defaults the headers to a single Content-Type:
text/html entry when absent, resolves the status text by lookup, and
stores the body verbatim. -/
def HttpResponse.new (status_code : String)
    (headers : Option (List (String × String)))
    (body : Option String) : HttpResponse :=
  { HttpResponse.default with
    status_code := status_code
    headers :=
      match headers with
      | some _h => headers
      | none => some [("Content-Type", "text/html")]
    status_text := statusTextOf status_code
    body := body }

/-- HttpResponse::headers (src lines 74-85): folds the header map into
"name: value\r\n" lines in iteration order; empty string when the map
is absent. -/
def HttpResponse.headersString (r : HttpResponse) : String :=
  match r.headers with
  | some map =>
      map.foldl (fun header_string kv => header_string ++ kv.1 ++ ": " ++ kv.2 ++ "\r\n") ""
  | none => ""

/-- HttpResponse::body (src lines 87-92): the body string, or "" when
absent. -/
def HttpResponse.bodyString (r : HttpResponse) : String :=
  match r.body with
  | some b => b
  | none => ""

/-- the body_length computation in the From impl (src lines 97-100):
the UTF-8 byte length of the body, 0 when absent. -/
def bodyLength (body : Option String) : Nat :=
  match body with
  | some b => b.utf8ByteSize
  | none => 0

/-- impl From of HttpResponse for String (src lines 95-112): the format!
call concatenating status line, header lines, Content-Length line, blank
line and body. -/
def HttpResponse.render (res : HttpResponse) : String :=
  res.version ++ " " ++ res.status_code ++ " " ++ res.status_text ++ "\r\n"
    ++ res.headersString ++ "Content-Length: " ++ toString (bodyLength res.body)
    ++ "\r\n\r\n" ++ res.bodyString

/-- one rendered header line, as produced by the fold in
HttpResponse::headers. -/
def headerLine (kv : String × String) : String :=
  kv.1 ++ ": " ++ kv.2 ++ "\r\n"

/-- the rendered header lines of a header list, in iteration order. -/
def headerLines (hs : List (String × String)) : List String :=
  hs.map headerLine

/-- concatenation of a list of strings. -/
def concatStrings : List String → String
  | [] => ""
  | s :: ss => s ++ concatStrings ss

/-- the header map actually installed by HttpResponse::new: the supplied
one, or the default single Content-Type entry. -/
def defaultedHeaders (headers : Option (List (String × String))) :
    List (String × String) :=
  match headers with
  | some hs => hs
  | none => [("Content-Type", "text/html")]

/-- an output sink: bytes written so far, plus an optional pending error
that makes the next write fail. -/
structure WriteStream (ε : Type) where
  buf : String
  failure : Option ε
  deriving Repr

/-- writing to the sink: fails with exactly the pending error, otherwise
appends the data to the buffer. -/
def WriteStream.write {ε : Type} (s : WriteStream ε) (data : String) :
    Except ε (WriteStream ε) :=
  match s.failure with
  | some e => Except.error e
  | none => Except.ok { s with buf := s.buf ++ data }

/-- HttpResponse::send_response (src lines 56-60): renders self and writes
the resulting string to the stream; the question-mark operator propagates
the write error unmodified. The mutated stream is returned in place of
Rust's mutable reference. -/
def HttpResponse.send_response {ε : Type} (res : HttpResponse)
    (write_stream : WriteStream ε) : Except ε (WriteStream ε) :=
  match write_stream.write res.render with
  | Except.ok s => Except.ok s
  | Except.error e => Except.error e

/-- the status line of the rendered message: the first five pieces of the
format! concatenation. -/
def HttpResponse.statusLine (res : HttpResponse) : String :=
  res.version ++ " " ++ res.status_code ++ " " ++ res.status_text ++ "\r\n"

/-- the Content-Length line together with the terminating blank line: the
tail pieces of the format! concatenation before the body. -/
def HttpResponse.contentLengthBlock (res : HttpResponse) : String :=
  "Content-Length: " ++ toString (bodyLength res.body) ++ "\r\n\r\n"

/-! Helper lemmas shared by the claims. -/

theorem foldl_headerLine_eq (hs : List (String × String)) (a : String) :
    hs.foldl (fun header_string kv => header_string ++ kv.1 ++ ": " ++ kv.2 ++ "\r\n") a
      = a ++ concatStrings (headerLines hs) := by
  induction hs generalizing a with
  | nil => simp [concatStrings, headerLines]
  | cons kv tl ih =>
      rw [List.foldl_cons, ih]
      simp [concatStrings, headerLines, headerLine, String.append_assoc]

theorem headersString_some (r : HttpResponse) (hs : List (String × String))
    (h : r.headers = some hs) :
    r.headersString = concatStrings (headerLines hs) := by
  unfold HttpResponse.headersString
  rw [h]
  simp [foldl_headerLine_eq]

theorem new_headers_eq (c : String) (h : Option (List (String × String)))
    (b : Option String) :
    (HttpResponse.new c h b).headers = some (defaultedHeaders h) := by
  cases h <;> rfl

theorem render_eq (res : HttpResponse) (hs : List (String × String))
    (h : res.headers = some hs) :
    res.render = res.version ++ " " ++ res.status_code ++ " " ++ res.status_text ++ "\r\n"
      ++ concatStrings (headerLines hs) ++ "Content-Length: " ++ toString (bodyLength res.body)
      ++ "\r\n\r\n" ++ res.bodyString := by
  unfold HttpResponse.render
  rw [headersString_some res hs h]

theorem render_decompose (res : HttpResponse) :
    res.render = res.statusLine ++ res.headersString ++ res.contentLengthBlock
      ++ res.bodyString := by
  simp [HttpResponse.render, HttpResponse.statusLine, HttpResponse.contentLengthBlock,
    String.append_assoc]

theorem statusTextOf_fallback (c : String) (h1 : c ≠ "200") (h2 : c ≠ "400")
    (h3 : c ≠ "404") (h4 : c ≠ "500") : statusTextOf c = "Not Found" := by
  unfold statusTextOf
  split <;> simp_all

/-! The claims. -/

/-- C1: rendering Construct(c, h, b) produces exactly the byte sequence
"HTTP/1.1 " plus c plus " " plus the status text plus CRLF, followed by one
"name: value" CRLF line per header of the installed map, then
"Content-Length: " plus the body byte length, CRLF CRLF, then the body
(empty when absent), with no other characters; in particular the concrete
example with status "200", default headers and body "hello" renders to the
exact expected string. -/
theorem wire_format_of_new (c : String) (h : Option (List (String × String)))
    (b : Option String) :
    ((HttpResponse.new c h b).render
      = "HTTP/1.1 " ++ c ++ " " ++ statusTextOf c ++ "\r\n"
        ++ concatStrings (headerLines (defaultedHeaders h))
        ++ "Content-Length: " ++ toString (bodyLength b) ++ "\r\n\r\n"
        ++ (HttpResponse.new c h b).bodyString)
    ∧ (HttpResponse.new "200" none (some "hello")).render
      = "HTTP/1.1 200 OK\r\nContent-Type: text/html\r\nContent-Length: 5\r\n\r\nhello" := by
  constructor
  · rw [render_eq _ _ (new_headers_eq c h b)]
    rfl
  · rfl

/-- C2: for every Response, the rendered output carries a Content-Length
value equal to the UTF-8 byte length of the body string (0 when the body is
absent); the value is computed at render time from the body field alone —
the last conjunct shows it is unchanged under any replacement of the other
fields, including the header map, and the Response stores no such field. -/
theorem content_length_invariant (r : HttpResponse) :
    (r.render = r.statusLine ++ r.headersString ++ "Content-Length: "
        ++ toString (bodyLength r.body) ++ "\r\n\r\n" ++ r.bodyString)
    ∧ bodyLength r.body = r.bodyString.utf8ByteSize
    ∧ (∀ v c st hs, bodyLength (HttpResponse.mk v c st hs r.body).body = bodyLength r.body) := by
  refine ⟨?_, ?_, fun v c st hs => rfl⟩
  · simp [HttpResponse.render, HttpResponse.statusLine, String.append_assoc]
  · cases hb : r.body
    · simp only [bodyLength, HttpResponse.bodyString, hb]
      rfl
    · simp [bodyLength, HttpResponse.bodyString, hb]

/-- C3: Construct resolves status_text by exact-match lookup: "200" gives
"OK", "400" gives "Bad Request", "404" gives "Not Found", "500" gives
"Internal Server Error", and every other code string gives "Not Found". -/
theorem status_text_lookup (h : Option (List (String × String))) (b : Option String) :
    (HttpResponse.new "200" h b).status_text = "OK"
    ∧ (HttpResponse.new "400" h b).status_text = "Bad Request"
    ∧ (HttpResponse.new "404" h b).status_text = "Not Found"
    ∧ (HttpResponse.new "500" h b).status_text = "Internal Server Error"
    ∧ ∀ c, c ≠ "200" → c ≠ "400" → c ≠ "404" → c ≠ "500" →
        (HttpResponse.new c h b).status_text = "Not Found" := by
  refine ⟨rfl, rfl, rfl, rfl, ?_⟩
  intro c h1 h2 h3 h4
  show statusTextOf c = "Not Found"
  exact statusTextOf_fallback c h1 h2 h3 h4

/-- C3 witness: the unrecognized code "999" maps to "Not Found". -/
theorem status_text_lookup_witness :
    ("999" : String) ≠ "200" ∧ (HttpResponse.new "999" none none).status_text = "Not Found" :=
  ⟨by decide, (status_text_lookup none none).2.2.2.2 "999" (by decide) (by decide)
    (by decide) (by decide)⟩

/-- C4: when the headers argument is omitted, the installed map is exactly
the single entry Content-Type: text/html, the header section of the
rendered output is exactly that one line, and the full rendering is the
status line, that one header line, the injected Content-Length line, the
blank line and the body. -/
theorem default_headers_single_content_type (c : String) (b : Option String) :
    (HttpResponse.new c none b).headers = some [("Content-Type", "text/html")]
    ∧ headerLines (defaultedHeaders none) = ["Content-Type: text/html\r\n"]
    ∧ (HttpResponse.new c none b).render
        = "HTTP/1.1 " ++ c ++ " " ++ statusTextOf c ++ "\r\n" ++ "Content-Type: text/html\r\n"
          ++ "Content-Length: " ++ toString (bodyLength b) ++ "\r\n\r\n"
          ++ (HttpResponse.new c none b).bodyString := by
  refine ⟨rfl, rfl, ?_⟩
  rw [render_eq _ _ (new_headers_eq c none b)]
  rfl

/-- C5 counterexample: with the empty supplied header map (which contains no
entry at all, hence no value "text/html") and body "text/html", the rendered
output does contain "text/html" — refuting the claim that it could not. -/
theorem supplied_headers_contains_counterexample :
    (∀ kv ∈ ([] : List (String × String)), kv.2 ≠ "text/html")
    ∧ "text/html".data <:+:
        ((HttpResponse.new "200" (some []) (some "text/html")).render).data := by
  constructor
  · simp
  · decide

/-- C5 amended: for every supplied header map h, Construct uses exactly h:
the stored map is h, the header section of the rendered output is exactly
the concatenation of h's "name: value" lines (one per entry, no default
Content-Type: text/html entry merged in); the full rendered string may
still contain "text/html" through the status code, status text or body. -/
theorem supplied_headers_used_exactly (c : String) (hs : List (String × String))
    (b : Option String) :
    (HttpResponse.new c (some hs) b).headers = some hs
    ∧ (HttpResponse.new c (some hs) b).headersString = concatStrings (headerLines hs)
    ∧ (HttpResponse.new c (some hs) b).render
        = "HTTP/1.1 " ++ c ++ " " ++ statusTextOf c ++ "\r\n" ++ concatStrings (headerLines hs)
          ++ "Content-Length: " ++ toString (bodyLength b) ++ "\r\n\r\n"
          ++ (HttpResponse.new c (some hs) b).bodyString := by
  refine ⟨rfl, headersString_some _ hs rfl, ?_⟩
  rw [render_eq _ hs rfl]
  rfl

/-- C6: construction is total — new is a total Lean function defined on all
inputs — and it stores the status code verbatim without validation, sets
the version to HTTP/1.1, stores the body verbatim, resolves the status
text by the lookup, and always installs a header map. -/
theorem construction_total_and_verbatim (c : String)
    (h : Option (List (String × String))) (b : Option String) :
    (HttpResponse.new c h b).status_code = c
    ∧ (HttpResponse.new c h b).version = "HTTP/1.1"
    ∧ (HttpResponse.new c h b).body = b
    ∧ (HttpResponse.new c h b).status_text = statusTextOf c
    ∧ (HttpResponse.new c h b).headers = some (defaultedHeaders h) :=
  ⟨rfl, rfl, rfl, rfl, new_headers_eq c h b⟩

/-- C7: send_response renders the Response and hands exactly those bytes to
the sink write; it succeeds exactly when the sink write succeeds, in which
case the sink buffer grows by exactly the rendered bytes, and when the
sink write fails the sink's own error is returned unmodified. -/
theorem send_response_spec {ε : Type} (res : HttpResponse) (s : WriteStream ε) :
    res.send_response s = s.write res.render
    ∧ (s.failure = none →
        res.send_response s = Except.ok { buf := s.buf ++ res.render, failure := none })
    ∧ (∀ e, s.failure = some e → res.send_response s = Except.error e) := by
  unfold HttpResponse.send_response WriteStream.write
  cases hf : s.failure <;> simp_all

/-- C7 witness: sending to a healthy empty sink appends exactly the
rendered bytes. -/
theorem send_response_spec_witness :
    (HttpResponse.new "200" none (some "hello")).send_response
        ({ buf := "", failure := none } : WriteStream Unit)
      = Except.ok { buf := "" ++ (HttpResponse.new "200" none (some "hello")).render,
                    failure := none } :=
  (send_response_spec (HttpResponse.new "200" none (some "hello"))
    { buf := "", failure := none }).2.1 rfl

/-- C8: rendering is deterministic modulo header-line ordering: two
Responses equal in every field except that their header maps are
permutations of one another agree on the status line, the Content-Length
line with its terminating blank line, and the body, their header-line
lists are permutations of one another, and each rendering is exactly the
concatenation of those agreed parts around its own header-line order. -/
theorem render_det_mod_order (v c st : String) (b : Option String)
    (hs1 hs2 : List (String × String)) (hperm : hs1.Perm hs2) :
    (HttpResponse.mk v c st (some hs1) b).statusLine
        = (HttpResponse.mk v c st (some hs2) b).statusLine
    ∧ (HttpResponse.mk v c st (some hs1) b).contentLengthBlock
        = (HttpResponse.mk v c st (some hs2) b).contentLengthBlock
    ∧ (HttpResponse.mk v c st (some hs1) b).bodyString
        = (HttpResponse.mk v c st (some hs2) b).bodyString
    ∧ (headerLines hs1).Perm (headerLines hs2)
    ∧ (HttpResponse.mk v c st (some hs1) b).render
        = (HttpResponse.mk v c st (some hs1) b).statusLine ++ concatStrings (headerLines hs1)
          ++ (HttpResponse.mk v c st (some hs1) b).contentLengthBlock
          ++ (HttpResponse.mk v c st (some hs1) b).bodyString
    ∧ (HttpResponse.mk v c st (some hs2) b).render
        = (HttpResponse.mk v c st (some hs2) b).statusLine ++ concatStrings (headerLines hs2)
          ++ (HttpResponse.mk v c st (some hs2) b).contentLengthBlock
          ++ (HttpResponse.mk v c st (some hs2) b).bodyString := by
  refine ⟨rfl, rfl, rfl, hperm.map headerLine, ?_, ?_⟩ <;>
    rw [render_decompose, headersString_some _ _ rfl]

/-- C8 witness: two concrete opposite header orders are permutations, and
their rendered header-line lists are permutations. -/
theorem render_det_mod_order_witness :
    List.Perm [(("A" : String), ("1" : String)), ("B", "2")] [("B", "2"), ("A", "1")]
    ∧ (headerLines [("A", "1"), ("B", "2")]).Perm (headerLines [("B", "2"), ("A", "1")]) :=
  ⟨by decide, (render_det_mod_order "HTTP/1.1" "200" "OK" (some "x")
    [("A", "1"), ("B", "2")] [("B", "2"), ("A", "1")] (by decide)).2.2.2.1⟩

/-- C9: every Response built by the constructor has a present header map —
the supplied one or the default — so the empty-string branch of header
rendering for an absent map is unreachable for constructed Responses: the
header section always comes from the some branch. -/
theorem headers_always_present (c : String) (h : Option (List (String × String)))
    (b : Option String) :
    (HttpResponse.new c h b).headers ≠ none
    ∧ (HttpResponse.new c h b).headers = some (defaultedHeaders h)
    ∧ (HttpResponse.new c h b).headersString
        = concatStrings (headerLines (defaultedHeaders h)) := by
  refine ⟨?_, new_headers_eq c h b, headersString_some _ _ (new_headers_eq c h b)⟩
  rw [new_headers_eq c h b]
  simp

/-- C10: send_response leaves the Response unchanged (it is passed by value
and only the sink is returned), so it can be called repeatedly: on a
healthy sink two consecutive calls both succeed and each appends exactly
the same rendered bytes. -/
theorem send_response_repeatable {ε : Type} (res : HttpResponse) (s : WriteStream ε)
    (h : s.failure = none) :
    ∃ s1 s2 : WriteStream ε,
      res.send_response s = Except.ok s1
      ∧ res.send_response s1 = Except.ok s2
      ∧ s1.buf = s.buf ++ res.render
      ∧ s1.failure = none
      ∧ s2.buf = s.buf ++ res.render ++ res.render
      ∧ s2.failure = none := by
  refine ⟨{ buf := s.buf ++ res.render, failure := none },
          { buf := s.buf ++ res.render ++ res.render, failure := none },
          ?_, ?_, rfl, rfl, rfl, rfl⟩
  · unfold HttpResponse.send_response WriteStream.write
    rw [h]
  · rfl

/-- C10 witness: two consecutive sends of the same Response to a healthy
empty sink both succeed and append the rendered bytes twice. -/
theorem send_response_repeatable_witness :
    ∃ s1 s2 : WriteStream Unit,
      (HttpResponse.new "404" none none).send_response { buf := "", failure := none }
          = Except.ok s1
      ∧ (HttpResponse.new "404" none none).send_response s1 = Except.ok s2
      ∧ s1.buf = "" ++ (HttpResponse.new "404" none none).render
      ∧ s1.failure = none
      ∧ s2.buf = "" ++ (HttpResponse.new "404" none none).render
          ++ (HttpResponse.new "404" none none).render
      ∧ s2.failure = none :=
  send_response_repeatable (HttpResponse.new "404" none none)
    { buf := "", failure := none } rfl
